import Mathlib

/-!
Verification of `generate_project.py`, a generator of large synthetic C++
project trees together with a `compile_commands.json` build database.

The embedding below translates the Python source into Lean:

* module-level configuration (`Config`) holds the values resolved from the
  command line (`COMPILER_PATH`, `NUMBER_OF_SOURCES`, `NUMBER_OF_HEADERS`,
  `SUBDIR_COUNT`) plus the absolute project directory string
  (`PROJECT_DIR.absolute().as_posix()` in the source);
* the pure helpers (`SOURCES_PER_DIR`, `get_source_subdir`,
  `get_source_template`, ...) are translated function by function; Python
  f-strings become explicit string concatenations, `str(i)` becomes
  `Nat.repr i`, and `.strip()` has been applied to the literal templates;
* Python `//` and `%` raise `ZeroDivisionError` on a zero divisor while
  Lean's `Nat` operations are total, so a `checked_div` / `checked_mod`
  layer mirrors the raising behaviour where a zero divisor is reachable;
* the filesystem is modelled as the contents of the project directory:
  `none` when no directory exists at the target path, `some files` when it
  holds the listed files (in the order they were written);
* the orchestrator (`generate_project` / `main` / `sys.exit`) becomes
  `program_run`, parameterised by an injected-fault oracle (the index of a
  file write that raises an I/O error, if any) and by whether the
  best-effort cleanup `shutil.rmtree(..., ignore_errors=True)` itself
  fails.  A Python process terminated by an uncaught exception exits with
  status 1.
-/

namespace ProjGen

/-- Configuration resolved from the command line (module-level constants of
the script). -/
structure Config where
  COMPILER_PATH : String
  NUMBER_OF_SOURCES : Nat
  NUMBER_OF_HEADERS : Nat
  SUBDIR_COUNT : Nat
  PROJECT_DIR_ABS : String
  deriving DecidableEq

/-- Python integer division `a // b`, which raises `ZeroDivisionError` when
`b = 0`; modelled as `none` in that case. -/
def checked_div (a b : Nat) : Option Nat :=
  if b = 0 then none else some (a / b)

/-- Python modulo `a % b`, which raises `ZeroDivisionError` when `b = 0`;
modelled as `none` in that case. -/
def checked_mod (a b : Nat) : Option Nat :=
  if b = 0 then none else some (a % b)

/-- Line 26: `SOURCES_PER_DIR = (NUMBER_OF_SOURCES + SUBDIR_COUNT - 1) // SUBDIR_COUNT`
(total version, used once the divisor is known to be nonzero). -/
def SOURCES_PER_DIR (c : Config) : Nat :=
  (c.NUMBER_OF_SOURCES + c.SUBDIR_COUNT - 1) / c.SUBDIR_COUNT

/-- Line 27: `HEADERS_PER_DIR = (NUMBER_OF_HEADERS + SUBDIR_COUNT - 1) // SUBDIR_COUNT`
(total version). -/
def HEADERS_PER_DIR (c : Config) : Nat :=
  (c.NUMBER_OF_HEADERS + c.SUBDIR_COUNT - 1) / c.SUBDIR_COUNT

/-- Line 26 with Python's raising division: evaluated at module import time,
before `main` runs and before any filesystem access. -/
def SOURCES_PER_DIR_checked (c : Config) : Option Nat :=
  checked_div (c.NUMBER_OF_SOURCES + c.SUBDIR_COUNT - 1) c.SUBDIR_COUNT

/-- Line 27 with Python's raising division. -/
def HEADERS_PER_DIR_checked (c : Config) : Option Nat :=
  checked_div (c.NUMBER_OF_HEADERS + c.SUBDIR_COUNT - 1) c.SUBDIR_COUNT

/-- Lines 35-36: `get_source_subdir(i) = f"subdir_{i // SOURCES_PER_DIR}"`. -/
def get_source_subdir (c : Config) (i : Nat) : String :=
  "subdir_" ++ Nat.repr (i / SOURCES_PER_DIR c)

/-- Lines 39-40: `get_include_subdir(i) = f"subdir_{i // HEADERS_PER_DIR}"`. -/
def get_include_subdir (c : Config) (i : Nat) : String :=
  "subdir_" ++ Nat.repr (i / HEADERS_PER_DIR c)

/-- Body of the f-string template of lines 46-53 (after `.strip()`), with the
header index passed explicitly. -/
def source_template_core (i header_i : Nat) : String :=
  "#include <file_" ++ Nat.repr header_i ++ ".h>\n\nstatic void test_" ++ Nat.repr i ++
    "(int a, int b) \x7b\n  foo_" ++ Nat.repr header_i ++ "(b, a);\n\x7d"

/-- Lines 43-53: `get_source_template(i)` with `header_i = i % NUMBER_OF_HEADERS`
(total version). -/
def get_source_template (c : Config) (i : Nat) : String :=
  source_template_core i (i % c.NUMBER_OF_HEADERS)

/-- Lines 43-53 with Python's raising modulo: `i % NUMBER_OF_HEADERS` raises
`ZeroDivisionError` when `NUMBER_OF_HEADERS = 0`. -/
def get_source_template_checked (c : Config) (i : Nat) : Option String :=
  (checked_mod i c.NUMBER_OF_HEADERS).map (source_template_core i)

/-- Lines 56-63: `get_header_template(i)` (after `.strip()`). -/
def get_header_template (i : Nat) : String :=
  "#pragma once\n\n// Some function\nvoid foo_" ++ Nat.repr i ++ "(int a, int b);"

/-- Project-relative POSIX path of source `i`:
`sources/<get_source_subdir(i)>/file_<i>.cpp` (lines 70-72, relative to
`PROJECT_DIR` as in line 116). -/
def source_rel_path (c : Config) (i : Nat) : String :=
  "sources/" ++ get_source_subdir c i ++ "/file_" ++ Nat.repr i ++ ".cpp"

/-- Project-relative POSIX path of header `i`:
`includes/<get_include_subdir(i)>/file_<i>.h` (lines 84-89). -/
def header_rel_path (c : Config) (i : Nat) : String :=
  "includes/" ++ get_include_subdir c i ++ "/file_" ++ Nat.repr i ++ ".h"

/-- Project-relative path of the subdirectory holding header `i` (line 84). -/
def header_dir_rel (c : Config) (i : Nat) : String :=
  "includes/" ++ get_include_subdir c i

/-- Lines 66-77: `generate_sources` returns the ordered list of created
source paths (here project-relative, as they are consumed in line 116). -/
def generate_sources_paths (c : Config) : List String :=
  (List.range c.NUMBER_OF_SOURCES).map (source_rel_path c)

/-- Line 82-87: the set of include directories accumulated by
`generate_headers`, as a duplicate-free list (insertion order irrelevant
because it is sorted next). -/
def all_include_dirs (c : Config) : List String :=
  ((List.range c.NUMBER_OF_HEADERS).map (header_dir_rel c)).dedup

/-- Python `sorted` on strings: sort by the lexicographic string order.
`pathlib.Path` ordering coincides with string ordering here because all the
paths share the literal first component and the second component has no
separator. -/
def strSort (l : List String) : List String :=
  l.mergeSort (fun a b => decide (a ≤ b))

/-- Line 92: `generate_headers` returns `sorted(all_include_dirs)`. -/
def generate_headers_dirs (c : Config) : List String :=
  strSort (all_include_dirs c)

/-- Python `str.removesuffix`: drop `suf` from the end of `s` when `s` ends
with `suf`, otherwise return `s` unchanged. -/
def removesuffix (s suf : String) : String :=
  if suf.data.isSuffixOf s.data then
    String.mk (s.data.take (s.data.length - suf.data.length))
  else s

/-- Python `str.endswith`: does `s` end with `suf`? -/
def endswith (s suf : String) : Bool :=
  suf.data.isSuffixOf s.data

/-- Line 96: one `-I<dir>` flag per (already sorted) include directory; the
code sorts the received list again. -/
def include_flags (c : Config) : List String :=
  (strSort (generate_headers_dirs c)).map (fun d => "-I" ++ d)

/-- Lines 101-111: the compile command for one source file, as the list of
arguments built by the code before `subprocess.list2cmdline` joins them into
a single string. -/
def build_command (c : Config) (rel : String) : List String :=
  if endswith c.COMPILER_PATH "clang-cl.exe" then
    [c.COMPILER_PATH, "--driver-mode=cl", "/c",
      "/Foobj/" ++ removesuffix rel ".cpp" ++ ".obj",
      "/Fdobj/" ++ removesuffix rel ".cpp" ++ ".pdb"] ++ include_flags c
  else
    [c.COMPILER_PATH, "-c", rel] ++ include_flags c

/-- One record of `compile_commands.json` (lines 113-117).  The `command`
field keeps the argument list; the code serialises it with
`subprocess.list2cmdline`. -/
structure CompileEntry where
  directory : String
  command : List String
  file : String
  deriving DecidableEq

/-- Lines 95-118: the JSON array written to `compile_commands.json`, one
entry per source in source-generation order. -/
def generate_compile_commands (c : Config) : List CompileEntry :=
  (generate_sources_paths c).map (fun rel =>
    { directory := c.PROJECT_DIR_ABS, command := build_command c rel, file := rel })

/-- Content of a file in the generated tree: templated text, or the compile
database serialised as a JSON array. -/
inductive FileContent where
  | text (s : String)
  | jsonArray (entries : List CompileEntry)
  deriving DecidableEq

/-- The source files written by `generate_sources`, in write order. -/
def source_files (c : Config) : List (String × FileContent) :=
  (List.range c.NUMBER_OF_SOURCES).map
    (fun i => (source_rel_path c i, FileContent.text (get_source_template c i)))

/-- The header files written by `generate_headers`, in write order. -/
def header_files (c : Config) : List (String × FileContent) :=
  (List.range c.NUMBER_OF_HEADERS).map
    (fun i => (header_rel_path c i, FileContent.text (get_header_template i)))

/-- Every file of a completed project directory, in write order: sources,
then headers, then the compile database. -/
def all_files (c : Config) : List (String × FileContent) :=
  source_files c ++ header_files c ++
    [("compile_commands.json", FileContent.jsonArray (generate_compile_commands c))]

/-- An exception interrupting generation: Python `ZeroDivisionError` from a
zero divisor, or an injected I/O error from a failing file write. -/
inductive PyError where
  | zeroDivisionError
  | ioError
  deriving DecidableEq

/-- State of the target path: `none` when no project directory exists there,
`some files` when the directory exists and holds exactly `files`. -/
abbrev FS := Option (List (String × FileContent))

/-- The file writes attempted by a run, in program order, each with the
content Python would compute for it (`none` when computing the content
raises, which happens for source templates when `NUMBER_OF_HEADERS = 0`). -/
def planned_writes (c : Config) : List (String × Option FileContent) :=
  (List.range c.NUMBER_OF_SOURCES).map
      (fun i => (source_rel_path c i, (get_source_template_checked c i).map FileContent.text))
    ++ (List.range c.NUMBER_OF_HEADERS).map
      (fun i => (header_rel_path c i, some (FileContent.text (get_header_template i))))
    ++ [("compile_commands.json", some (FileContent.jsonArray (generate_compile_commands c)))]

/-- Perform the planned writes in order.  `fault = some n` injects an I/O
error at the write with zero-based position `n`; a `none` content means the
write itself raises while computing the content.  Returns the files written
so far and the first exception, if any. -/
def write_loop : List (String × Option FileContent) → Option Nat →
    List (String × FileContent) → List (String × FileContent) × Option PyError
  | [], _, acc => (acc, none)
  | w :: rest, fault, acc =>
    if fault = some 0 then (acc, some PyError.ioError)
    else
      match w.2 with
      | none => (acc, some PyError.zeroDivisionError)
      | some content => write_loop rest (fault.map (fun n => n - 1)) (acc ++ [(w.1, content)])

/-- Lines 121-138: `generate_project`.  Any pre-existing directory at the
target path is removed and the directory is recreated (so the incoming
filesystem state is irrelevant), then all writes run in order; on an
exception the `except` block removes the directory with
`shutil.rmtree(..., ignore_errors=True)` — when that cleanup itself fails
the partially written directory survives — and re-raises. -/
def generate_project_run (c : Config) (fault : Option Nat) (cleanupFails : Bool) :
    FS × Option PyError :=
  match write_loop (planned_writes c) fault [] with
  | (written, none) => (some written, none)
  | (written, some e) => (if cleanupFails then some written else none, some e)

/-- The whole process: module import evaluates `SOURCES_PER_DIR` and
`HEADERS_PER_DIR` (lines 26-27, raising on `SUBDIR_COUNT = 0` before any
filesystem access), then `main` (lines 141-147) checks
`os.path.isfile(COMPILER_PATH)` and either returns 1 or runs
`generate_project`.  Result: final state of the target path and the process
exit status (1 for an uncaught exception). -/
def program_run (c : Config) (compilerIsFile : Bool) (fault : Option Nat)
    (cleanupFails : Bool) (fs : FS) : FS × Nat :=
  match SOURCES_PER_DIR_checked c, HEADERS_PER_DIR_checked c with
  | none, _ => (fs, 1)
  | some _, none => (fs, 1)
  | some _, some _ =>
    if compilerIsFile then
      match generate_project_run c fault cleanupFails with
      | (fs', none) => (fs', 0)
      | (fs', some _) => (fs', 1)
    else (fs, 1)

/-- Decimal digit list of `n`, most significant first: the list that
`Nat.toDigitsCore` produces, in structural form. -/
def reprDigits (n : Nat) : List Char :=
  if h : n / 10 = 0 then [Nat.digitChar (n % 10)]
  else reprDigits (n / 10) ++ [Nat.digitChar (n % 10)]
decreasing_by exact Nat.div_lt_self (Nat.pos_of_ne_zero (fun h0 => h (by simp [h0]))) (by decide)

/-- Concrete configuration `--compiler gcc --sources 4 --headers 2 --subdirs 2`,
the worked example of the specification. -/
def cfgA : Config := ⟨"gcc", 4, 2, 2, "/abs/BigProject_4_2"⟩

/-- Concrete configuration whose compiler path ends in the MSVC-compatible
front-end name `clang-cl.exe`. -/
def cfgB : Config := ⟨"clang-cl.exe", 1, 1, 1, "/abs/BigProject_1_1"⟩

/-- Concrete configuration with `--subdirs 0`. -/
def cfgD0 : Config := ⟨"gcc", 4, 2, 0, "/abs/BigProject_4_2"⟩

/-- Concrete configuration with `--headers 0` and at least one source. -/
def cfgH0 : Config := ⟨"gcc", 4, 0, 2, "/abs/BigProject_4_0"⟩

/-! Decimal representation: `Nat.repr` (Python `str` on a nonnegative `int`)
agrees with the structural digit list `reprDigits`, whose injectivity backs
the uniqueness of the generated file names. -/

theorem reprDigits_eq_small {n : Nat} (h : n / 10 = 0) :
    reprDigits n = [Nat.digitChar (n % 10)] := by
  rw [reprDigits, dif_pos h]

theorem reprDigits_eq_big {n : Nat} (h : ¬ n / 10 = 0) :
    reprDigits n = reprDigits (n / 10) ++ [Nat.digitChar (n % 10)] := by
  rw [reprDigits, dif_neg h]

theorem toDigitsCore_eq_reprDigits (fuel : Nat) :
    ∀ (n : Nat) (ds : List Char), n < fuel →
      Nat.toDigitsCore 10 fuel n ds = reprDigits n ++ ds := by
  induction fuel with
  | zero => intro n ds h; omega
  | succ f ih =>
    intro n ds h
    by_cases h0 : n / 10 = 0
    · simp only [Nat.toDigitsCore, h0, if_pos]
      rw [reprDigits_eq_small h0]
      simp
    · have hlt : n / 10 < n := Nat.div_lt_self (by omega) (by decide)
      simp only [Nat.toDigitsCore, h0, if_neg, if_false]
      rw [reprDigits_eq_big h0, ih (n / 10) _ (by omega)]
      simp

theorem repr_data_eq_reprDigits (n : Nat) : (Nat.repr n).data = reprDigits n := by
  show (Nat.toDigits 10 n).asString.data = reprDigits n
  rw [Nat.toDigits, toDigitsCore_eq_reprDigits (n + 1) n [] (Nat.lt_succ_self n)]
  simp [List.asString]

theorem digitChar_inj_lt : ∀ a < 10, ∀ b < 10,
    Nat.digitChar a = Nat.digitChar b → a = b := by decide

theorem digitChar_isDigit : ∀ a < 10, (Nat.digitChar a).isDigit = true := by decide

theorem reprDigits_ne_nil (n : Nat) : reprDigits n ≠ [] := by
  by_cases h0 : n / 10 = 0
  · rw [reprDigits_eq_small h0]
    simp
  · rw [reprDigits_eq_big h0]
    simp

theorem reprDigits_isDigit (n : Nat) : ∀ ch ∈ reprDigits n, ch.isDigit = true := by
  induction n using Nat.strong_induction_on with
  | _ n ih =>
    have hm : (Nat.digitChar (n % 10)).isDigit = true :=
      digitChar_isDigit (n % 10) (Nat.mod_lt n (by decide))
    by_cases h0 : n / 10 = 0
    · rw [reprDigits_eq_small h0]
      simpa using hm
    · rw [reprDigits_eq_big h0]
      intro ch hch
      rcases List.mem_append.mp hch with h | h
      · exact ih (n / 10) (Nat.div_lt_self (by omega) (by decide)) ch h
      · simp only [List.mem_singleton] at h
        simpa [h] using hm

theorem reprDigits_injective : ∀ n m : Nat, reprDigits n = reprDigits m → n = m := by
  intro n
  induction n using Nat.strong_induction_on with
  | _ n ih =>
    intro m h
    have hn10 : n % 10 < 10 := Nat.mod_lt n (by decide)
    have hm10 : m % 10 < 10 := Nat.mod_lt m (by decide)
    by_cases h0 : n / 10 = 0 <;> by_cases h1 : m / 10 = 0
    · rw [reprDigits_eq_small h0, reprDigits_eq_small h1] at h
      simp only [List.cons.injEq] at h
      have := digitChar_inj_lt (n % 10) hn10 (m % 10) hm10 h.1
      omega
    · rw [reprDigits_eq_small h0, reprDigits_eq_big h1] at h
      exfalso
      have hlen := congrArg List.length h
      simp only [List.length_cons, List.length_append, List.length_nil] at hlen
      exact reprDigits_ne_nil (m / 10) (List.length_eq_zero.mp (by omega))
    · rw [reprDigits_eq_big h0, reprDigits_eq_small h1] at h
      exfalso
      have hlen := congrArg List.length h
      simp only [List.length_cons, List.length_append, List.length_nil] at hlen
      exact reprDigits_ne_nil (n / 10) (List.length_eq_zero.mp (by omega))
    · rw [reprDigits_eq_big h0, reprDigits_eq_big h1] at h
      obtain ⟨h2, h3⟩ := List.append_inj' h (by simp)
      simp only [List.cons.injEq] at h3
      have hmod := digitChar_inj_lt (n % 10) hn10 (m % 10) hm10 h3.1
      have hdivlt : n / 10 < n := Nat.div_lt_self (by omega) (by decide)
      have hdiv := ih (n / 10) hdivlt (m / 10) h2
      omega

theorem natRepr_injective : Function.Injective Nat.repr := by
  intro n m h
  apply reprDigits_injective
  rw [← repr_data_eq_reprDigits, ← repr_data_eq_reprDigits, h]

theorem natRepr_isDigit (n : Nat) : ∀ ch ∈ (Nat.repr n).data, ch.isDigit = true := by
  rw [repr_data_eq_reprDigits]
  exact reprDigits_isDigit n

/-! Splitting concatenations at a non-digit separator: used to recover the
numeric fields of a generated path from the path string. -/

theorem digit_block_split (sep : Char) (hsep : sep.isDigit = false) :
    ∀ (x y u v : List Char), (∀ ch ∈ x, ch.isDigit = true) →
      (∀ ch ∈ y, ch.isDigit = true) →
      x ++ sep :: u = y ++ sep :: v → x = y ∧ u = v := by
  intro x
  induction x with
  | nil =>
    intro y u v _ hy h
    cases y with
    | nil => simpa using h
    | cons b ys =>
      simp only [List.nil_append, List.cons_append, List.cons.injEq] at h
      have : b.isDigit = true := hy b (by simp)
      rw [← h.1] at this
      rw [hsep] at this
      exact absurd this (by simp)
  | cons a xs ih =>
    intro y u v hx hy h
    cases y with
    | nil =>
      simp only [List.cons_append, List.nil_append, List.cons.injEq] at h
      have : a.isDigit = true := hx a (by simp)
      rw [h.1, hsep] at this
      exact absurd this (by simp)
    | cons b ys =>
      simp only [List.cons_append, List.cons.injEq] at h
      obtain ⟨h2, h3⟩ := ih ys u v (fun ch hch => hx ch (by simp [hch]))
        (fun ch hch => hy ch (by simp [hch])) h.2
      exact ⟨by rw [h.1, h2], h3⟩

theorem path_data_inj (p mid suf : List Char) (sep₁ sep₂ : Char)
    (hs₁ : sep₁.isDigit = false) (hs₂ : sep₂.isDigit = false) (a a' b b' : Nat)
    (h : p ++ ((Nat.repr a).data ++ (sep₁ :: (mid ++ ((Nat.repr b).data ++ (sep₂ :: suf)))))
       = p ++ ((Nat.repr a').data ++ (sep₁ :: (mid ++ ((Nat.repr b').data ++ (sep₂ :: suf)))))) :
    a = a' ∧ b = b' := by
  have h1 := List.append_cancel_left h
  obtain ⟨h2, h3⟩ := digit_block_split sep₁ hs₁ _ _ _ _
    (natRepr_isDigit a) (natRepr_isDigit a') h1
  have h4 := List.append_cancel_left h3
  obtain ⟨h5, _⟩ := digit_block_split sep₂ hs₂ _ _ _ _
    (natRepr_isDigit b) (natRepr_isDigit b') h4
  exact ⟨natRepr_injective (String.ext h2), natRepr_injective (String.ext h5)⟩

theorem source_rel_path_data (c : Config) (i : Nat) :
    (source_rel_path c i).data =
      "sources/subdir_".data ++ ((Nat.repr (i / SOURCES_PER_DIR c)).data ++
        ('/' :: ("file_".data ++ ((Nat.repr i).data ++ ('.' :: "cpp".data))))) := by
  simp only [source_rel_path, get_source_subdir, String.data_append, List.append_assoc]
  rfl

theorem header_rel_path_data (c : Config) (i : Nat) :
    (header_rel_path c i).data =
      "includes/subdir_".data ++ ((Nat.repr (i / HEADERS_PER_DIR c)).data ++
        ('/' :: ("file_".data ++ ((Nat.repr i).data ++ ('.' :: "h".data))))) := by
  simp only [header_rel_path, get_include_subdir, String.data_append, List.append_assoc]
  rfl

theorem source_rel_path_injective (c : Config) : Function.Injective (source_rel_path c) := by
  intro i j h
  have hd := congrArg String.data h
  rw [source_rel_path_data, source_rel_path_data] at hd
  exact (path_data_inj _ _ _ '/' '.' (by decide) (by decide) _ _ _ _ hd).2

theorem header_rel_path_injective (c : Config) : Function.Injective (header_rel_path c) := by
  intro i j h
  have hd := congrArg String.data h
  rw [header_rel_path_data, header_rel_path_data] at hd
  exact (path_data_inj _ _ _ '/' '.' (by decide) (by decide) _ _ _ _ hd).2

theorem source_rel_path_head (c : Config) (i : Nat) :
    (source_rel_path c i).data.head? = some 's' := rfl

theorem header_rel_path_head (c : Config) (i : Nat) :
    (header_rel_path c i).data.head? = some 'i' := rfl

/-! Python `removesuffix` and `endswith` on concatenations. -/

theorem removesuffix_append (x s : String) : removesuffix (x ++ s) s = x := by
  unfold removesuffix
  rw [if_pos]
  · show String.mk ((x.data ++ s.data).take ((x.data ++ s.data).length - s.data.length)) = x
    rw [List.length_append, Nat.add_sub_cancel, List.take_left]
  · show s.data.isSuffixOf (x.data ++ s.data) = true
    rw [List.isSuffixOf_iff_suffix]
    exact List.suffix_append x.data s.data

theorem endswith_append (x s : String) : endswith (x ++ s) s = true := by
  show s.data.isSuffixOf (x.data ++ s.data) = true
  rw [List.isSuffixOf_iff_suffix]
  exact List.suffix_append x.data s.data

/-! Ceiling-division bucket arithmetic (lines 26-27, 35-40). -/

theorem per_dir_succ (n d : Nat) (hn : 1 ≤ n) (hd : 1 ≤ d) :
    (n + d - 1) / d = (n - 1) / d + 1 := by
  have h1 : n + d - 1 = (n - 1) + d := by omega
  rw [h1, Nat.add_div_right _ (by omega)]

theorem le_mul_per_dir (n d : Nat) (hn : 1 ≤ n) (hd : 1 ≤ d) :
    n ≤ d * ((n + d - 1) / d) := by
  rw [per_dir_succ n d hn hd, Nat.mul_succ]
  have h2 := Nat.div_add_mod (n - 1) d
  have h3 : (n - 1) % d < d := Nat.mod_lt _ (by omega)
  omega

theorem per_dir_pos (n d : Nat) (hn : 1 ≤ n) (hd : 1 ≤ d) :
    1 ≤ (n + d - 1) / d := by
  rw [per_dir_succ n d hn hd]
  exact Nat.le_add_left 1 _

theorem bucket_le (n d i : Nat) (hn : 1 ≤ n) (hd : 1 ≤ d) (hi : i < n) :
    i / ((n + d - 1) / d) ≤ d - 1 := by
  have hp := per_dir_pos n d hn hd
  have hlt : i / ((n + d - 1) / d) < d := by
    rw [Nat.div_lt_iff_lt_mul (by omega)]
    calc i < n := hi
      _ ≤ d * ((n + d - 1) / d) := le_mul_per_dir n d hn hd
  omega

theorem bucket_image (n p : Nat) (hn : 1 ≤ n) (hp : 1 ≤ p) :
    (Finset.range n).image (fun i => i / p) = Finset.range ((n - 1) / p + 1) := by
  ext k
  simp only [Finset.mem_image, Finset.mem_range]
  constructor
  · rintro ⟨i, hi, rfl⟩
    have : i / p ≤ (n - 1) / p := Nat.div_le_div_right (by omega)
    omega
  · intro hk
    refine ⟨k * p, ?_, Nat.mul_div_cancel k (by omega)⟩
    have h1 : k ≤ (n - 1) / p := by omega
    have h2 := (Nat.le_div_iff_mul_le (by omega)).mp h1
    omega

theorem bucket_card (n d : Nat) (hn : 1 ≤ n) (hd : 1 ≤ d) :
    ((Finset.range n).image (fun i => i / ((n + d - 1) / d))).card
      = (n + ((n + d - 1) / d) - 1) / ((n + d - 1) / d) := by
  have hp := per_dir_pos n d hn hd
  rw [bucket_image n _ hn hp, Finset.card_range, per_dir_succ n _ hn hp]

/-! Characterisation of the generated file lists. -/

theorem source_files_length (c : Config) :
    (source_files c).length = c.NUMBER_OF_SOURCES := by
  simp [source_files]

theorem header_files_length (c : Config) :
    (header_files c).length = c.NUMBER_OF_HEADERS := by
  simp [header_files]

theorem source_files_getElem? (c : Config) (i : Nat) (hi : i < c.NUMBER_OF_SOURCES) :
    (source_files c)[i]? =
      some (source_rel_path c i, FileContent.text (get_source_template c i)) := by
  simp [source_files, hi]

theorem header_files_getElem? (c : Config) (i : Nat) (hi : i < c.NUMBER_OF_HEADERS) :
    (header_files c)[i]? =
      some (header_rel_path c i, FileContent.text (get_header_template i)) := by
  simp [header_files, hi]

theorem source_files_fst (c : Config) :
    (source_files c).map Prod.fst = generate_sources_paths c := by
  simp [source_files, generate_sources_paths, List.map_map]

theorem header_files_fst (c : Config) :
    (header_files c).map Prod.fst = (List.range c.NUMBER_OF_HEADERS).map (header_rel_path c) := by
  simp [header_files, List.map_map]

theorem generate_sources_paths_nodup (c : Config) : (generate_sources_paths c).Nodup :=
  (List.nodup_range _).map (source_rel_path_injective c)

theorem header_paths_nodup (c : Config) :
    ((List.range c.NUMBER_OF_HEADERS).map (header_rel_path c)).Nodup :=
  (List.nodup_range _).map (header_rel_path_injective c)

theorem all_files_fst_nodup (c : Config) : ((all_files c).map Prod.fst).Nodup := by
  have hsrc : ∀ p ∈ (source_files c).map Prod.fst, p.data.head? = some 's' := by
    rw [source_files_fst]
    intro p hp
    obtain ⟨i, _, rfl⟩ := List.mem_map.mp hp
    exact source_rel_path_head c i
  have hhdr : ∀ p ∈ (header_files c).map Prod.fst, p.data.head? = some 'i' := by
    rw [header_files_fst]
    intro p hp
    obtain ⟨i, _, rfl⟩ := List.mem_map.mp hp
    exact header_rel_path_head c i
  rw [all_files, List.map_append, List.map_append, List.append_assoc]
  rw [List.nodup_append]
  refine ⟨?_, ?_, ?_⟩
  · rw [source_files_fst]; exact generate_sources_paths_nodup c
  · rw [List.nodup_append]
    refine ⟨?_, by simp, ?_⟩
    · rw [header_files_fst]; exact header_paths_nodup c
    · intro p hp hq
      have h1 := hhdr p hp
      simp only [List.map_cons, List.map_nil, List.mem_singleton] at hq
      rw [hq] at h1
      simp at h1
  · intro p hp hq
    have h1 := hsrc p hp
    rcases List.mem_append.mp hq with h | h
    · have h2 := hhdr p h
      rw [h2] at h1
      simp at h1
    · simp only [List.map_cons, List.map_nil, List.mem_singleton] at h
      rw [h] at h1
      simp at h1

theorem generate_compile_commands_length (c : Config) :
    (generate_compile_commands c).length = c.NUMBER_OF_SOURCES := by
  simp [generate_compile_commands, generate_sources_paths]

theorem generate_compile_commands_getElem? (c : Config) (i : Nat)
    (hi : i < c.NUMBER_OF_SOURCES) :
    (generate_compile_commands c)[i]? =
      some ⟨c.PROJECT_DIR_ABS, build_command c (source_rel_path c i), source_rel_path c i⟩ := by
  simp [generate_compile_commands, generate_sources_paths, hi]

theorem generate_compile_commands_files (c : Config) :
    (generate_compile_commands c).map (fun e => e.file) = generate_sources_paths c := by
  simp only [generate_compile_commands, List.map_map]
  have h : ((fun e : CompileEntry => e.file) ∘ fun rel =>
      (⟨c.PROJECT_DIR_ABS, build_command c rel, rel⟩ : CompileEntry)) = id := rfl
  rw [h, List.map_id]

theorem mem_generate_compile_commands (c : Config) (e : CompileEntry)
    (he : e ∈ generate_compile_commands c) :
    ∃ i < c.NUMBER_OF_SOURCES,
      e = ⟨c.PROJECT_DIR_ABS, build_command c (source_rel_path c i), source_rel_path c i⟩ := by
  obtain ⟨rel, hrel, hrfl⟩ := List.mem_map.mp he
  obtain ⟨i, hi, rfl⟩ := List.mem_map.mp hrel
  exact ⟨i, List.mem_range.mp hi, hrfl.symm⟩

/-! Behaviour of the write loop and the orchestrator. -/

theorem get_source_template_checked_eq (c : Config) (hH : c.NUMBER_OF_HEADERS ≠ 0) (i : Nat) :
    get_source_template_checked c i = some (get_source_template c i) := by
  simp [get_source_template_checked, checked_mod, hH, get_source_template]

theorem planned_writes_all_some (c : Config) (hH : c.NUMBER_OF_HEADERS ≠ 0) :
    planned_writes c = (all_files c).map (fun w => (w.1, some w.2)) := by
  simp only [planned_writes, all_files, source_files, header_files, List.map_append,
    List.map_map, List.map_cons, List.map_nil]
  congr 1
  congr 1
  exact List.map_congr_left
    (fun i _ => by simp [Function.comp, get_source_template_checked_eq c hH i])

theorem write_loop_no_fault (l : List (String × FileContent)) :
    ∀ acc, write_loop (l.map (fun w => (w.1, some w.2))) none acc = (acc ++ l, none) := by
  induction l with
  | nil => intro acc; simp [write_loop]
  | cons w rest ih =>
    intro acc
    simp only [List.map_cons, write_loop]
    rw [if_neg (by simp)]
    show write_loop (rest.map (fun w => (w.1, some w.2))) (Option.map _ none)
      (acc ++ [(w.1, w.2)]) = (acc ++ w :: rest, none)
    rw [show Option.map (fun n => n - 1) (none : Option Nat) = none from rfl, ih]
    simp

theorem write_loop_fault_ne (l : List (String × Option FileContent)) :
    ∀ (n : Nat) (acc), n < l.length → (write_loop l (some n) acc).2 ≠ none := by
  induction l with
  | nil => intro n acc h; simp at h
  | cons w rest ih =>
    intro n acc h
    by_cases h0 : n = 0
    · subst h0
      simp [write_loop]
    · rw [write_loop, if_neg (by simp [h0])]
      cases hw : w.2 with
      | none => simp
      | some content =>
        show (write_loop rest (Option.map (fun k => k - 1) (some n)) _).2 ≠ none
        rw [show Option.map (fun k => k - 1) (some n) = some (n - 1) from rfl]
        apply ih
        simp only [List.length_cons] at h
        omega

theorem generate_project_run_ok (c : Config) (hH : c.NUMBER_OF_HEADERS ≠ 0) (cf : Bool) :
    generate_project_run c none cf = (some (all_files c), none) := by
  unfold generate_project_run
  rw [planned_writes_all_some c hH, write_loop_no_fault (all_files c) []]
  simp

theorem program_run_ok (c : Config) (hD : c.SUBDIR_COUNT ≠ 0) (hH : c.NUMBER_OF_HEADERS ≠ 0)
    (cf : Bool) (fs : FS) :
    program_run c true none cf fs = (some (all_files c), 0) := by
  unfold program_run SOURCES_PER_DIR_checked HEADERS_PER_DIR_checked checked_div
  rw [if_neg hD, if_neg hD]
  simp only [if_pos]
  rw [generate_project_run_ok c hH cf]

theorem program_run_fault (c : Config) (hD : c.SUBDIR_COUNT ≠ 0) (n : Nat)
    (hn : n < (planned_writes c).length) (fs : FS) :
    program_run c true (some n) false fs = (none, 1) ∧
    (program_run c true (some n) true fs).2 = 1 := by
  unfold program_run SOURCES_PER_DIR_checked HEADERS_PER_DIR_checked checked_div
  rw [if_neg hD, if_neg hD]
  simp only [if_pos]
  have hne := write_loop_fault_ne (planned_writes c) n [] hn
  unfold generate_project_run
  constructor
  · rcases hw : write_loop (planned_writes c) (some n) [] with ⟨written, err⟩
    cases err with
    | none => rw [hw] at hne; simp at hne
    | some e => simp
  · rcases hw : write_loop (planned_writes c) (some n) [] with ⟨written, err⟩
    cases err with
    | none => rw [hw] at hne; simp at hne
    | some e => simp

/-! The sorted include-directory list (lines 92 and 96). -/

theorem strSort_perm (l : List String) : List.Perm (strSort l) l :=
  List.mergeSort_perm l _

theorem mem_strSort (l : List String) (x : String) : x ∈ strSort l ↔ x ∈ l :=
  List.mem_mergeSort

theorem strSort_sorted (l : List String) :
    (strSort l).Pairwise (fun a b => a ≤ b) := by
  have h : (strSort l).Pairwise (fun a b => (decide (a ≤ b)) = true) := by
    apply List.sorted_mergeSort
    · intro a b c hab hbc
      simp only [decide_eq_true_eq] at hab hbc ⊢
      exact le_trans hab hbc
    · intro a b
      simp only [Bool.or_eq_true, decide_eq_true_eq]
      exact le_total a b
  exact h.imp (fun hab => by simpa using hab)

theorem sorted_dirs_nodup (c : Config) : (strSort (generate_headers_dirs c)).Nodup := by
  apply ((strSort_perm _).trans (strSort_perm _)).nodup_iff.mpr
  exact List.nodup_dedup _

theorem sorted_dirs_mem (c : Config) (d : String) :
    d ∈ strSort (generate_headers_dirs c) ↔
      ∃ i < c.NUMBER_OF_HEADERS, d = header_dir_rel c i := by
  rw [mem_strSort, generate_headers_dirs, mem_strSort, all_include_dirs, List.mem_dedup,
    List.mem_map]
  constructor
  · rintro ⟨i, hi, rfl⟩
    exact ⟨i, List.mem_range.mp hi, rfl⟩
  · rintro ⟨i, hi, rfl⟩
    exact ⟨i, List.mem_range.mpr hi, rfl⟩

/-! Shape of the compile commands (lines 101-111). -/

theorem build_command_clang (c : Config) (rel : String)
    (h : endswith c.COMPILER_PATH "clang-cl.exe" = true) :
    build_command c rel = [c.COMPILER_PATH, "--driver-mode=cl", "/c",
      "/Foobj/" ++ removesuffix rel ".cpp" ++ ".obj",
      "/Fdobj/" ++ removesuffix rel ".cpp" ++ ".pdb"] ++ include_flags c := by
  simp [build_command, h]

theorem build_command_generic (c : Config) (rel : String)
    (h : endswith c.COMPILER_PATH "clang-cl.exe" = false) :
    build_command c rel = [c.COMPILER_PATH, "-c", rel] ++ include_flags c := by
  simp [build_command, h]

theorem source_rel_path_cpp (c : Config) (i : Nat) :
    source_rel_path c i =
      ("sources/" ++ get_source_subdir c i ++ "/file_" ++ Nat.repr i) ++ ".cpp" := rfl

theorem removesuffix_source_rel_path (c : Config) (i : Nat) :
    removesuffix (source_rel_path c i) ".cpp" ++ ".cpp" = source_rel_path c i := by
  rw [source_rel_path_cpp, removesuffix_append]

/-! Zero divisors (claim about `SUBDIR_COUNT = 0` and `NUMBER_OF_HEADERS = 0`). -/

theorem SOURCES_PER_DIR_checked_none (c : Config) (hD : c.SUBDIR_COUNT = 0) :
    SOURCES_PER_DIR_checked c = none := by
  simp [SOURCES_PER_DIR_checked, checked_div, hD]

theorem program_run_div0 (c : Config) (hD : c.SUBDIR_COUNT = 0) (b : Bool)
    (fault : Option Nat) (cf : Bool) (fs : FS) :
    program_run c b fault cf fs = (fs, 1) := by
  unfold program_run
  rw [SOURCES_PER_DIR_checked_none c hD]

theorem get_source_template_checked_none (c : Config) (hH : c.NUMBER_OF_HEADERS = 0) (i : Nat) :
    get_source_template_checked c i = none := by
  simp [get_source_template_checked, checked_mod, hH]

theorem program_run_H0 (c : Config) (hD : c.SUBDIR_COUNT ≠ 0)
    (hH : c.NUMBER_OF_HEADERS = 0) (hS : 1 ≤ c.NUMBER_OF_SOURCES) (fs : FS) :
    program_run c true none true fs = (some [], 1) := by
  obtain ⟨k, hk⟩ : ∃ k, c.NUMBER_OF_SOURCES = k + 1 :=
    ⟨c.NUMBER_OF_SOURCES - 1, by omega⟩
  unfold program_run SOURCES_PER_DIR_checked HEADERS_PER_DIR_checked checked_div
  rw [if_neg hD, if_neg hD]
  simp only [if_pos]
  unfold generate_project_run planned_writes
  rw [hk, List.range_succ_eq_map]
  simp only [List.map_cons, List.cons_append]
  rw [get_source_template_checked_none c hH 0]
  simp [write_loop]

/-- Claim C1: for every source count `S ≥ 1`, header count `H ≥ 1` and
subdirectory count `D ≥ 1`, a successful run creates exactly `S` source
files and exactly `H` header files (all generated paths are pairwise
distinct); source index `i` is placed at
`sources/subdir_{i / ceil(S/D)}/file_{i}.cpp` and header index `i` at
`includes/subdir_{i / ceil(H/D)}/file_{i}.h`, where the two per-directory
bucket sizes are computed independently. -/
theorem claim_C1 (c : Config) (_hS : 1 ≤ c.NUMBER_OF_SOURCES)
    (hH : 1 ≤ c.NUMBER_OF_HEADERS) (hD : 1 ≤ c.SUBDIR_COUNT) (fs : FS) :
    program_run c true none false fs = (some (all_files c), 0) ∧
    ((all_files c).map Prod.fst).Nodup ∧
    (source_files c).length = c.NUMBER_OF_SOURCES ∧
    (header_files c).length = c.NUMBER_OF_HEADERS ∧
    (∀ i < c.NUMBER_OF_SOURCES, (source_files c)[i]? =
      some ("sources/subdir_" ++ Nat.repr (i / (c.NUMBER_OF_SOURCES ⌈/⌉ c.SUBDIR_COUNT)) ++
        "/file_" ++ Nat.repr i ++ ".cpp", FileContent.text (get_source_template c i))) ∧
    (∀ i < c.NUMBER_OF_HEADERS, (header_files c)[i]? =
      some ("includes/subdir_" ++ Nat.repr (i / (c.NUMBER_OF_HEADERS ⌈/⌉ c.SUBDIR_COUNT)) ++
        "/file_" ++ Nat.repr i ++ ".h", FileContent.text (get_header_template i))) := by
  refine ⟨program_run_ok c (by omega) (by omega) false fs, all_files_fst_nodup c,
    source_files_length c, header_files_length c, ?_, ?_⟩
  · intro i hi
    rw [source_files_getElem? c i hi]
    rfl
  · intro i hi
    rw [header_files_getElem? c i hi]
    rfl

/-- Claim C1 witness at the concrete configuration `cfgA`. -/
theorem claim_C1_witness :
    program_run cfgA true none false none = (some (all_files cfgA), 0) ∧
    ((all_files cfgA).map Prod.fst).Nodup ∧
    (source_files cfgA).length = cfgA.NUMBER_OF_SOURCES ∧
    (header_files cfgA).length = cfgA.NUMBER_OF_HEADERS ∧
    (∀ i < cfgA.NUMBER_OF_SOURCES, (source_files cfgA)[i]? =
      some ("sources/subdir_" ++ Nat.repr (i / (cfgA.NUMBER_OF_SOURCES ⌈/⌉ cfgA.SUBDIR_COUNT)) ++
        "/file_" ++ Nat.repr i ++ ".cpp", FileContent.text (get_source_template cfgA i))) ∧
    (∀ i < cfgA.NUMBER_OF_HEADERS, (header_files cfgA)[i]? =
      some ("includes/subdir_" ++ Nat.repr (i / (cfgA.NUMBER_OF_HEADERS ⌈/⌉ cfgA.SUBDIR_COUNT)) ++
        "/file_" ++ Nat.repr i ++ ".h", FileContent.text (get_header_template i))) :=
  claim_C1 cfgA (by decide) (by decide) (by decide) none

/-- Claim C2: for every source index `i < S` (with `H ≥ 1` headers), the
generated source content starts with an include of `file_{i mod H}.h`,
contains the function `test_{i}(int, int)`, whose body calls
`foo_{i mod H}` with its two arguments in swapped order `(b, a)` relative
to the header declaration `foo_{i mod H}(int a, int b)`. -/
theorem claim_C2 (c : Config) (i : Nat) (_hH : 1 ≤ c.NUMBER_OF_HEADERS)
    (_hi : i < c.NUMBER_OF_SOURCES) :
    ("#include <file_" ++ Nat.repr (i % c.NUMBER_OF_HEADERS) ++ ".h>").data
        <+: (get_source_template c i).data ∧
    ("static void test_" ++ Nat.repr i ++ "(int a, int b)").data
        <:+: (get_source_template c i).data ∧
    ("foo_" ++ Nat.repr (i % c.NUMBER_OF_HEADERS) ++ "(b, a);").data
        <:+: (get_source_template c i).data ∧
    ("void foo_" ++ Nat.repr (i % c.NUMBER_OF_HEADERS) ++ "(int a, int b);").data
        <:+: (get_header_template (i % c.NUMBER_OF_HEADERS)).data := by
  refine ⟨⟨("\n\nstatic void test_" ++ Nat.repr i ++ "(int a, int b) \x7b\n  foo_" ++
      Nat.repr (i % c.NUMBER_OF_HEADERS) ++ "(b, a);\n\x7d").data, ?_⟩,
    ⟨("#include <file_" ++ Nat.repr (i % c.NUMBER_OF_HEADERS) ++ ".h>\n\n").data,
      (" \x7b\n  foo_" ++ Nat.repr (i % c.NUMBER_OF_HEADERS) ++ "(b, a);\n\x7d").data, ?_⟩,
    ⟨("#include <file_" ++ Nat.repr (i % c.NUMBER_OF_HEADERS) ++ ".h>\n\nstatic void test_" ++
      Nat.repr i ++ "(int a, int b) \x7b\n  ").data, ("\n\x7d" : String).data, ?_⟩,
    ⟨("#pragma once\n\n// Some function\n" : String).data, ([] : List Char), ?_⟩⟩
  · simp only [get_source_template, source_template_core, String.data_append,
      List.append_assoc, List.cons_append, List.nil_append]
  · simp only [get_source_template, source_template_core, String.data_append,
      List.append_assoc, List.cons_append, List.nil_append]
  · simp only [get_source_template, source_template_core, String.data_append,
      List.append_assoc, List.cons_append, List.nil_append]
  · simp only [get_header_template, String.data_append, List.append_assoc,
      List.cons_append, List.nil_append, List.append_nil]

/-- Claim C2 witness at `cfgA` and source index 3 (header index `3 mod 2`). -/
theorem claim_C2_witness :
    ("#include <file_" ++ Nat.repr (3 % cfgA.NUMBER_OF_HEADERS) ++ ".h>").data
        <+: (get_source_template cfgA 3).data ∧
    ("static void test_" ++ Nat.repr 3 ++ "(int a, int b)").data
        <:+: (get_source_template cfgA 3).data ∧
    ("foo_" ++ Nat.repr (3 % cfgA.NUMBER_OF_HEADERS) ++ "(b, a);").data
        <:+: (get_source_template cfgA 3).data ∧
    ("void foo_" ++ Nat.repr (3 % cfgA.NUMBER_OF_HEADERS) ++ "(int a, int b);").data
        <:+: (get_header_template (3 % cfgA.NUMBER_OF_HEADERS)).data :=
  claim_C2 cfgA 3 (by decide) (by decide)

/-- Claim C3: after a successful run, `compile_commands.json` (written at
the project root) holds exactly `S` entries, one per generated source in
index order; entry `i` carries the absolute project directory, the command
for source `i`, and source `i`'s project-relative path as its file; the
file values are pairwise distinct and each names a file the run created. -/
theorem claim_C3 (c : Config) (_hS : 1 ≤ c.NUMBER_OF_SOURCES)
    (hH : 1 ≤ c.NUMBER_OF_HEADERS) (hD : 1 ≤ c.SUBDIR_COUNT) (fs : FS) :
    program_run c true none false fs = (some (all_files c), 0) ∧
    ("compile_commands.json", FileContent.jsonArray (generate_compile_commands c))
      ∈ all_files c ∧
    (generate_compile_commands c).length = c.NUMBER_OF_SOURCES ∧
    (∀ i < c.NUMBER_OF_SOURCES, (generate_compile_commands c)[i]? =
      some ⟨c.PROJECT_DIR_ABS, build_command c (source_rel_path c i), source_rel_path c i⟩) ∧
    ((generate_compile_commands c).map (fun e => e.file)).Nodup ∧
    (∀ e ∈ generate_compile_commands c, ∃ content, (e.file, content) ∈ all_files c) ∧
    (∀ e ∈ generate_compile_commands c, e.directory = c.PROJECT_DIR_ABS) := by
  refine ⟨program_run_ok c (by omega) (by omega) false fs, ?_,
    generate_compile_commands_length c, ?_, ?_, ?_, ?_⟩
  · unfold all_files
    exact List.mem_append_right _ (by simp)
  · intro i hi
    exact generate_compile_commands_getElem? c i hi
  · rw [generate_compile_commands_files]
    exact generate_sources_paths_nodup c
  · intro e he
    obtain ⟨i, hi, rfl⟩ := mem_generate_compile_commands c e he
    have hmem : (source_rel_path c i, FileContent.text (get_source_template c i))
        ∈ source_files c := List.mem_map.mpr ⟨i, List.mem_range.mpr hi, rfl⟩
    exact ⟨FileContent.text (get_source_template c i), by
      unfold all_files
      exact List.mem_append_left _ (List.mem_append_left _ hmem)⟩
  · intro e he
    obtain ⟨i, hi, rfl⟩ := mem_generate_compile_commands c e he
    rfl

/-- Claim C3 witness at the concrete configuration `cfgA`. -/
theorem claim_C3_witness :
    program_run cfgA true none false none = (some (all_files cfgA), 0) ∧
    ("compile_commands.json", FileContent.jsonArray (generate_compile_commands cfgA))
      ∈ all_files cfgA ∧
    (generate_compile_commands cfgA).length = cfgA.NUMBER_OF_SOURCES ∧
    (∀ i < cfgA.NUMBER_OF_SOURCES, (generate_compile_commands cfgA)[i]? =
      some ⟨cfgA.PROJECT_DIR_ABS, build_command cfgA (source_rel_path cfgA i),
        source_rel_path cfgA i⟩) ∧
    ((generate_compile_commands cfgA).map (fun e => e.file)).Nodup ∧
    (∀ e ∈ generate_compile_commands cfgA, ∃ content, (e.file, content) ∈ all_files cfgA) ∧
    (∀ e ∈ generate_compile_commands cfgA, e.directory = cfgA.PROJECT_DIR_ABS) :=
  claim_C3 cfgA (by decide) (by decide) (by decide) none

/-- Claim C4: for every entry of the compile database, when the compiler
path ends in `clang-cl.exe` the command contains `--driver-mode=cl`, `/c`,
and `/Fo` / `/Fd` output paths under `obj/` obtained from the source's
relative path with the `.cpp` extension genuinely stripped; otherwise the
command is the compiler followed by `-c`, the source's relative path and
the include flags. -/
theorem claim_C4 (c : Config) (e : CompileEntry) (he : e ∈ generate_compile_commands c) :
    (endswith c.COMPILER_PATH "clang-cl.exe" = true →
      "--driver-mode=cl" ∈ e.command ∧ "/c" ∈ e.command ∧
      ("/Foobj/" ++ removesuffix e.file ".cpp" ++ ".obj") ∈ e.command ∧
      ("/Fdobj/" ++ removesuffix e.file ".cpp" ++ ".pdb") ∈ e.command ∧
      removesuffix e.file ".cpp" ++ ".cpp" = e.file) ∧
    (endswith c.COMPILER_PATH "clang-cl.exe" = false →
      e.command = [c.COMPILER_PATH, "-c", e.file] ++ include_flags c) := by
  obtain ⟨i, hi, rfl⟩ := mem_generate_compile_commands c e he
  constructor
  · intro hcl
    have hc := build_command_clang c (source_rel_path c i) hcl
    refine ⟨?_, ?_, ?_, ?_, removesuffix_source_rel_path c i⟩ <;>
      (show _ ∈ build_command c (source_rel_path c i); rw [hc]; simp)
  · intro hgen
    show build_command c (source_rel_path c i) = _
    rw [build_command_generic c (source_rel_path c i) hgen]

/-- Claim C4 witness at `cfgB` (whose compiler path is `clang-cl.exe`) and
its only compile entry. -/
theorem claim_C4_witness :
    (endswith cfgB.COMPILER_PATH "clang-cl.exe" = true →
      "--driver-mode=cl" ∈ build_command cfgB (source_rel_path cfgB 0) ∧
      "/c" ∈ build_command cfgB (source_rel_path cfgB 0) ∧
      ("/Foobj/" ++ removesuffix (source_rel_path cfgB 0) ".cpp" ++ ".obj")
        ∈ build_command cfgB (source_rel_path cfgB 0) ∧
      ("/Fdobj/" ++ removesuffix (source_rel_path cfgB 0) ".cpp" ++ ".pdb")
        ∈ build_command cfgB (source_rel_path cfgB 0) ∧
      removesuffix (source_rel_path cfgB 0) ".cpp" ++ ".cpp" = source_rel_path cfgB 0) ∧
    (endswith cfgB.COMPILER_PATH "clang-cl.exe" = false →
      build_command cfgB (source_rel_path cfgB 0) =
        [cfgB.COMPILER_PATH, "-c", source_rel_path cfgB 0] ++ include_flags cfgB) :=
  claim_C4 cfgB
    ⟨cfgB.PROJECT_DIR_ABS, build_command cfgB (source_rel_path cfgB 0), source_rel_path cfgB 0⟩
    (List.mem_map.mpr ⟨source_rel_path cfgB 0,
      List.mem_map.mpr ⟨0, by decide, rfl⟩, rfl⟩)

/-- Claim C5: when the compiler path does not reference an existing file the
process exits with status 1 and the state of the target path is untouched
(no project directory is created, and a pre-existing one is unchanged). -/
theorem claim_C5 (c : Config) (fault : Option Nat) (cleanupFails : Bool) (fs : FS) :
    program_run c false fault cleanupFails fs = (fs, 1) := by
  unfold program_run
  rcases SOURCES_PER_DIR_checked c with _ | v1
  · rfl
  · rcases HEADERS_PER_DIR_checked c with _ | v2
    · rfl
    · rfl

/-- Claim C6: if any write during generation raises, the orchestrator
deletes the partially constructed project directory, and even when that
best-effort cleanup itself fails the original error still propagates, so
the process exits non-zero; on the success path the process exits zero
with the complete project in place. -/
theorem claim_C6 (c : Config) (hD : c.SUBDIR_COUNT ≠ 0) (hH : c.NUMBER_OF_HEADERS ≠ 0)
    (n : Nat) (hn : n < (planned_writes c).length) (cf : Bool) (fs : FS) :
    program_run c true (some n) false fs = (none, 1) ∧
    (program_run c true (some n) true fs).2 = 1 ∧
    program_run c true none cf fs = (some (all_files c), 0) := by
  obtain ⟨h1, h2⟩ := program_run_fault c hD n hn fs
  exact ⟨h1, h2, program_run_ok c hD hH cf fs⟩

/-- Claim C6 witness at `cfgA`, failing the very first write. -/
theorem claim_C6_witness :
    program_run cfgA true (some 0) false none = (none, 1) ∧
    (program_run cfgA true (some 0) true none).2 = 1 ∧
    program_run cfgA true none false none = (some (all_files cfgA), 0) :=
  claim_C6 cfgA (by decide) (by decide) 0 (by decide) false none

/-- Claim C7: running the generator a second time with the same
configuration yields exactly the state a single run produces — any
pre-existing directory at the target path is fully replaced, so the result
does not depend on the initial state of the target path. -/
theorem claim_C7 (c : Config) (hD : c.SUBDIR_COUNT ≠ 0) (hH : c.NUMBER_OF_HEADERS ≠ 0)
    (fs fs' : FS) :
    program_run c true none false ((program_run c true none false fs).1)
        = program_run c true none false fs ∧
    (program_run c true none false fs).1 = (program_run c true none false fs').1 := by
  simp [program_run_ok c hD hH false]

/-- Claim C7 witness at `cfgA`, starting once from an empty target and once
from a stale directory. -/
theorem claim_C7_witness :
    program_run cfgA true none false ((program_run cfgA true none false none).1)
        = program_run cfgA true none false none ∧
    (program_run cfgA true none false none).1
        = (program_run cfgA true none false (some [])).1 :=
  claim_C7 cfgA (by decide) (by decide) none (some [])

/-- Claim C8: every compile command carries the same include-flag list:
one `-I` flag per subdirectory holding at least one header, deduplicated
and sorted, independent of which single header the source includes. -/
theorem claim_C8 (c : Config) :
    (∀ e ∈ generate_compile_commands c, ∃ pre, e.command = pre ++ include_flags c) ∧
    include_flags c = (strSort (generate_headers_dirs c)).map (fun d => "-I" ++ d) ∧
    (strSort (generate_headers_dirs c)).Nodup ∧
    (strSort (generate_headers_dirs c)).Pairwise (fun a b => a ≤ b) ∧
    (∀ d, ("-I" ++ d) ∈ include_flags c ↔
      ∃ i < c.NUMBER_OF_HEADERS, d = header_dir_rel c i) := by
  have hcancel : ∀ x d : String, "-I" ++ x = "-I" ++ d → x = d := by
    intro x d h
    have hd := congrArg String.data h
    simp only [String.data_append] at hd
    exact String.ext (List.append_cancel_left hd)
  refine ⟨?_, rfl, sorted_dirs_nodup c, strSort_sorted _, ?_⟩
  · intro e he
    obtain ⟨i, _, rfl⟩ := mem_generate_compile_commands c e he
    show ∃ pre, build_command c (source_rel_path c i) = pre ++ include_flags c
    by_cases hcl : endswith c.COMPILER_PATH "clang-cl.exe" = true
    · exact ⟨_, build_command_clang c (source_rel_path c i) hcl⟩
    · exact ⟨_, build_command_generic c (source_rel_path c i)
        (by simpa using hcl)⟩
  · intro d
    constructor
    · intro hmem
      obtain ⟨x, hx, hxd⟩ := List.mem_map.mp hmem
      rw [← hcancel x d hxd]
      exact (sorted_dirs_mem c x).mp hx
    · intro hd
      exact List.mem_map.mpr ⟨d, (sorted_dirs_mem c d).mpr hd, rfl⟩

/-- Claim C9: for `S ≥ 1`, `D ≥ 1` every source index `i < S` satisfies
`i / ceil(S/D) ≤ D - 1`, so at most `D` source buckets arise, and the
number of populated buckets is exactly `ceil(S / ceil(S/D))`; symmetrically
for headers. -/
theorem claim_C9 (c : Config) (hS : 1 ≤ c.NUMBER_OF_SOURCES)
    (hH : 1 ≤ c.NUMBER_OF_HEADERS) (hD : 1 ≤ c.SUBDIR_COUNT) :
    (∀ i < c.NUMBER_OF_SOURCES, i / SOURCES_PER_DIR c ≤ c.SUBDIR_COUNT - 1) ∧
    ((Finset.range c.NUMBER_OF_SOURCES).image (fun i => i / SOURCES_PER_DIR c)).card
      = c.NUMBER_OF_SOURCES ⌈/⌉ SOURCES_PER_DIR c ∧
    (∀ i < c.NUMBER_OF_HEADERS, i / HEADERS_PER_DIR c ≤ c.SUBDIR_COUNT - 1) ∧
    ((Finset.range c.NUMBER_OF_HEADERS).image (fun i => i / HEADERS_PER_DIR c)).card
      = c.NUMBER_OF_HEADERS ⌈/⌉ HEADERS_PER_DIR c := by
  refine ⟨?_, ?_, ?_, ?_⟩
  · intro i hi
    exact bucket_le _ _ i hS hD hi
  · exact bucket_card _ _ hS hD
  · intro i hi
    exact bucket_le _ _ i hH hD hi
  · exact bucket_card _ _ hH hD

/-- Claim C9 witness at the concrete configuration `cfgA`. -/
theorem claim_C9_witness :
    (∀ i < cfgA.NUMBER_OF_SOURCES, i / SOURCES_PER_DIR cfgA ≤ cfgA.SUBDIR_COUNT - 1) ∧
    ((Finset.range cfgA.NUMBER_OF_SOURCES).image (fun i => i / SOURCES_PER_DIR cfgA)).card
      = cfgA.NUMBER_OF_SOURCES ⌈/⌉ SOURCES_PER_DIR cfgA ∧
    (∀ i < cfgA.NUMBER_OF_HEADERS, i / HEADERS_PER_DIR cfgA ≤ cfgA.SUBDIR_COUNT - 1) ∧
    ((Finset.range cfgA.NUMBER_OF_HEADERS).image (fun i => i / HEADERS_PER_DIR cfgA)).card
      = cfgA.NUMBER_OF_HEADERS ⌈/⌉ HEADERS_PER_DIR cfgA :=
  claim_C9 cfgA (by decide) (by decide) (by decide)

/-- Claim C10: with `SUBDIR_COUNT = 0` the module-level bucket computation
raises a `ZeroDivisionError` before any filesystem access (the target path
is untouched and the process exits non-zero); with `NUMBER_OF_HEADERS = 0`
and at least one source, computing the first source's content raises a
modulo-by-zero after the project directory has been created (skipping the
cleanup shows the directory exists at that point). -/
theorem claim_C10 (c₀ c₁ : Config) (h₀ : c₀.SUBDIR_COUNT = 0)
    (h₁D : c₁.SUBDIR_COUNT ≠ 0) (h₁H : c₁.NUMBER_OF_HEADERS = 0)
    (h₁S : 1 ≤ c₁.NUMBER_OF_SOURCES) (b : Bool) (fault : Option Nat)
    (cf : Bool) (fs fs' : FS) :
    (SOURCES_PER_DIR_checked c₀ = none ∧ program_run c₀ b fault cf fs = (fs, 1)) ∧
    (get_source_template_checked c₁ 0 = none ∧
      program_run c₁ true none true fs' = (some [], 1)) :=
  ⟨⟨SOURCES_PER_DIR_checked_none c₀ h₀, program_run_div0 c₀ h₀ b fault cf fs⟩,
    ⟨get_source_template_checked_none c₁ h₁H 0, program_run_H0 c₁ h₁D h₁H h₁S fs'⟩⟩

/-- Claim C10 witness at `cfgD0` (zero subdirectories) and `cfgH0` (zero
headers, four sources). -/
theorem claim_C10_witness :
    (SOURCES_PER_DIR_checked cfgD0 = none ∧
      program_run cfgD0 true none false (some []) = (some [], 1)) ∧
    (get_source_template_checked cfgH0 0 = none ∧
      program_run cfgH0 true none true none = (some [], 1)) :=
  claim_C10 cfgD0 cfgH0 (by decide) (by decide) (by decide) (by decide)
    true none false (some []) none

end ProjGen
